import Mathlib

/-
Verification of `mars_mission_computer.py`.

The program is a single class `MissionComputer` with two reporter methods:
`get_mission_computer_info` queries five static system metrics
(platform.system(), platform.version(), platform.processor(),
psutil.cpu_count(logical=False), psutil.virtual_memory().total), and
`get_mission_computer_load` queries two live metrics
(psutil.cpu_percent(interval=1), psutil.virtual_memory().percent).
Each method builds a dict, serializes it with json.dumps and prints it,
returns the dict, and on any exception prints a diagnostic message and
returns None.  A driver prints a header and calls each method in turn.

The embedding treats the operating-system query layer as a black box
`SysEnv`: each underlying query either yields a value or raises an error
(modelled by `Except String`).  Python floats are modelled by rationals.
Each reporter method is a pure function of the environment that yields
the ordered trace of metric queries it performed, the list of console
lines it printed, and its return value (`Option Snapshot`, with `none`
for Python's `None`).
-/

namespace MarsMission

/-- Value stored in a metrics-snapshot dict entry: a Python string,
integer, or float (floats are modelled by rationals). -/
inductive PyVal where
  | str (s : String)
  | int (n : Int)
  | num (q : ℚ)
  deriving DecidableEq, Repr

/-- A metrics snapshot: an insertion-ordered Python dict from field
names to values, modelled as an association list. -/
abbrev Snapshot := List (String × PyVal)

/-- Type tag of a snapshot value: 0 for string, 1 for integer, 2 for
float.  Used to compare snapshot structure irrespective of the values. -/
def PyVal.typeTag : PyVal → Nat
  | .str _ => 0
  | .int _ => 1
  | .num _ => 2

/-- Structural shape of a snapshot: its field names in order, each
paired with the type tag of its value. -/
def shape (m : Snapshot) : List (String × Nat) :=
  m.map fun kv => (kv.1, kv.2.typeTag)

/-- The metric queries the program can issue against the system layer,
in the vocabulary of the Python source.  `cpuPercent` records the
`interval` argument passed to `psutil.cpu_percent`. -/
inductive Query where
  | platformSystem
  | platformVersion
  | platformProcessor
  | cpuCountPhysical
  | virtualMemoryTotal
  | cpuPercent (interval : Nat)
  | virtualMemoryPercent
  deriving DecidableEq, Repr

/-- Black-box system-query layer (platform / psutil) together with the
serialization-and-print step.  Every operation may raise, which is
modelled by `Except String` carrying the failure description (the text
Python would interpolate for the caught exception).  `emit` models the
`print(json.dumps(...))` line inside the try block: on success it yields
the rendered text that was printed. -/
structure SysEnv where
  system : Except String String
  version : Except String String
  processor : Except String String
  cpu_count_physical : Except String Int
  virtual_memory_total : Except String Nat
  cpu_percent : Nat → Except String ℚ
  virtual_memory_percent : Except String ℚ
  emit : Snapshot → Except String String

/-- Round a rational to the nearest integer, ties to even — the
semantics of Python's built-in `round` on exactly-representable
values. -/
def roundHalfEven (q : ℚ) : ℤ :=
  let f := ⌊q⌋
  let r := q - f
  if r < 1 / 2 then f
  else if 1 / 2 < r then f + 1
  else if 2 ∣ f then f else f + 1

/-- Python's `round(x, 2)`: round to two decimal places. -/
def round2 (q : ℚ) : ℚ :=
  (roundHalfEven (q * 100) : ℚ) / 100

/-- The diagnostic message of `get_mission_computer_info`'s except
block. -/
def infoErrorMsg (e : String) : String :=
  "시스템 정보 조회 에러: " ++ e

/-- The diagnostic message of `get_mission_computer_load`'s except
block. -/
def loadErrorMsg (e : String) : String :=
  "시스템 부하 조회 에러: " ++ e

/-- The dict built by `get_mission_computer_info` from the five query
results: OS name, OS version, CPU descriptor, physical core count, and
total memory converted from bytes to gigabytes and rounded to two
decimal places. -/
def infoSnapshot (s v p : String) (c : Int) (t : Nat) : Snapshot :=
  [("운영체계", .str s),
   ("운영체계_버전", .str v),
   ("CPU_타입", .str p),
   ("CPU_코어_수", .int c),
   ("메모리_크기_GB", .num (round2 ((t : ℚ) / 1024 ^ 3)))]

/-- The dict built by `get_mission_computer_load` from the two query
results. -/
def loadSnapshot (c v : ℚ) : Snapshot :=
  [("CPU_실시간_사용량_%", .num c),
   ("메모리_실시간_사용량_%", .num v)]

/-- Outcome of one reporter-method call: the ordered trace of metric
queries it issued, the console lines it printed, and its Python return
value. -/
structure CallResult where
  queries : List Query
  printed : List String
  ret : Option Snapshot
  deriving DecidableEq, Repr

/-- The `MissionComputer` class.  Its `__init__` stores nothing, so the
object has no fields. -/
structure MissionComputer

/-- Embedding of `get_mission_computer_info`.  The dict literal
evaluates its five queries in source order; the first raised error
aborts to the except block, which prints the diagnostic and returns
`None`.  On full success the snapshot is serialized and printed, and
returned. -/
def MissionComputer.get_mission_computer_info
    (_self : MissionComputer) (env : SysEnv) : CallResult :=
  match env.system with
  | .error e => ⟨[.platformSystem], [infoErrorMsg e], none⟩
  | .ok s =>
    match env.version with
    | .error e => ⟨[.platformSystem, .platformVersion], [infoErrorMsg e], none⟩
    | .ok v =>
      match env.processor with
      | .error e =>
        ⟨[.platformSystem, .platformVersion, .platformProcessor],
         [infoErrorMsg e], none⟩
      | .ok p =>
        match env.cpu_count_physical with
        | .error e =>
          ⟨[.platformSystem, .platformVersion, .platformProcessor,
            .cpuCountPhysical], [infoErrorMsg e], none⟩
        | .ok c =>
          match env.virtual_memory_total with
          | .error e =>
            ⟨[.platformSystem, .platformVersion, .platformProcessor,
              .cpuCountPhysical, .virtualMemoryTotal], [infoErrorMsg e], none⟩
          | .ok t =>
            match env.emit (infoSnapshot s v p c t) with
            | .error e =>
              ⟨[.platformSystem, .platformVersion, .platformProcessor,
                .cpuCountPhysical, .virtualMemoryTotal], [infoErrorMsg e], none⟩
            | .ok out =>
              ⟨[.platformSystem, .platformVersion, .platformProcessor,
                .cpuCountPhysical, .virtualMemoryTotal], [out],
               some (infoSnapshot s v p c t)⟩

/-- Embedding of `get_mission_computer_load`: samples
`psutil.cpu_percent(interval=1)` first, then reads
`psutil.virtual_memory().percent`; same error boundary as the info
reporter. -/
def MissionComputer.get_mission_computer_load
    (_self : MissionComputer) (env : SysEnv) : CallResult :=
  match env.cpu_percent 1 with
  | .error e => ⟨[.cpuPercent 1], [loadErrorMsg e], none⟩
  | .ok c =>
    match env.virtual_memory_percent with
    | .error e =>
      ⟨[.cpuPercent 1, .virtualMemoryPercent], [loadErrorMsg e], none⟩
    | .ok v =>
      match env.emit (loadSnapshot c v) with
      | .error e =>
        ⟨[.cpuPercent 1, .virtualMemoryPercent], [loadErrorMsg e], none⟩
      | .ok out =>
        ⟨[.cpuPercent 1, .virtualMemoryPercent], [out], some (loadSnapshot c v)⟩

/-- The object created by the `__main__` driver. -/
def runComputer : MissionComputer := ⟨⟩

/-- Console output of running the program with no arguments: header,
info report, header, load report, then exit. -/
def mainRun (env : SysEnv) : List String :=
  ["--- 미션 컴퓨터 시스템 정보 ---"]
    ++ (runComputer.get_mission_computer_info env).printed
    ++ ["--- 미션 컴퓨터 부하 상태 ---"]
    ++ (runComputer.get_mission_computer_load env).printed

/-- Description of the first error raised during
`get_mission_computer_info`'s metric queries, following the evaluation
order of the dict literal; `none` when all five queries succeed. -/
def firstInfoFailure (env : SysEnv) : Option String :=
  match env.system with
  | .error e => some e
  | .ok _ =>
    match env.version with
    | .error e => some e
    | .ok _ =>
      match env.processor with
      | .error e => some e
      | .ok _ =>
        match env.cpu_count_physical with
        | .error e => some e
        | .ok _ =>
          match env.virtual_memory_total with
          | .error e => some e
          | .ok _ => none

/-- Description of the first error raised during
`get_mission_computer_load`'s metric queries; `none` when both
succeed. -/
def firstLoadFailure (env : SysEnv) : Option String :=
  match env.cpu_percent 1 with
  | .error e => some e
  | .ok _ =>
    match env.virtual_memory_percent with
    | .error e => some e
    | .ok _ => none

/-- An environment on which every query succeeds: a Linux host with 4
physical cores, 16 GiB of memory, CPU at 50 percent and memory at 30
percent. -/
def envOk : SysEnv where
  system := .ok "Linux"
  version := .ok "5.15.0"
  processor := .ok "x86_64"
  cpu_count_physical := .ok 4
  virtual_memory_total := .ok 17179869184
  cpu_percent := fun _ => .ok 50
  virtual_memory_percent := .ok 30
  emit := fun _ => .ok "rendered"

/-- A second all-success environment with different metric values. -/
def envOk2 : SysEnv where
  system := .ok "Darwin"
  version := .ok "23.1.0"
  processor := .ok "arm"
  cpu_count_physical := .ok 8
  virtual_memory_total := .ok 34359738368
  cpu_percent := fun _ => .ok 75
  virtual_memory_percent := .ok 60
  emit := fun _ => .ok "rendered2"

/-- An environment on which the first metric query of each reporter
raises. -/
def envQueryFail : SysEnv where
  system := .error "boom"
  version := .ok "5.15.0"
  processor := .ok "x86_64"
  cpu_count_physical := .ok 4
  virtual_memory_total := .ok 17179869184
  cpu_percent := fun _ => .error "zap"
  virtual_memory_percent := .ok 30
  emit := fun _ => .ok "rendered"

/-- An environment on which every metric query succeeds but
serialization/printing raises. -/
def envEmitFail : SysEnv where
  system := .ok "Linux"
  version := .ok "5.15.0"
  processor := .ok "x86_64"
  cpu_count_physical := .ok 4
  virtual_memory_total := .ok 17179869184
  cpu_percent := fun _ => .ok 50
  virtual_memory_percent := .ok 30
  emit := fun _ => .error "brokenpipe"

/-- The snapshot the info reporter returns on `envOk`. -/
def infoOkSnap : Snapshot :=
  infoSnapshot "Linux" "5.15.0" "x86_64" 4 17179869184

/-- The rounding step moves a value by at most one half. -/
lemma abs_roundHalfEven_sub (q : ℚ) :
    |(roundHalfEven q : ℚ) - q| ≤ 1 / 2 := by
  have h1 : (⌊q⌋ : ℚ) ≤ q := Int.floor_le q
  have h2 : q < ⌊q⌋ + 1 := Int.lt_floor_add_one q
  simp only [roundHalfEven]
  split_ifs with ha hb hc <;> rw [abs_le] <;> constructor <;>
    push_cast <;> linarith

/-- Rounding to two decimal places always yields an integer number of
hundredths. -/
lemma round2_eq_div (q : ℚ) : ∃ n : ℤ, round2 q = (n : ℚ) / 100 :=
  ⟨roundHalfEven (q * 100), rfl⟩

/-- Rounding to two decimal places preserves non-negativity. -/
lemma round2_nonneg (q : ℚ) (hq : 0 ≤ q) : 0 ≤ round2 q := by
  have hz : (0 : ℤ) ≤ roundHalfEven (q * 100) := by
    have h100 : (0 : ℚ) ≤ q * 100 := by positivity
    have hf : (0 : ℤ) ≤ ⌊q * 100⌋ := Int.floor_nonneg.mpr h100
    simp only [roundHalfEven]
    split_ifs <;> omega
  exact div_nonneg (by exact_mod_cast hz) (by norm_num)

/-- Rounding to two decimal places moves a value by at most 1/200. -/
lemma abs_round2_sub (q : ℚ) : |round2 q - q| ≤ 1 / 200 := by
  have heq : round2 q - q
      = ((roundHalfEven (q * 100) : ℚ) - q * 100) / 100 := by
    simp only [round2]
    ring
  rw [heq, abs_div]
  have h100 : |(100 : ℚ)| = 100 := by norm_num
  rw [h100]
  have h := abs_roundHalfEven_sub (q * 100)
  linarith

/-- A successful info-reporter call means every one of the five queries
succeeded and the returned dict is exactly the one assembled from their
results. -/
lemma info_success (env : SysEnv) (m : Snapshot)
    (h : (runComputer.get_mission_computer_info env).ret = some m) :
    ∃ s v p c t, env.system = .ok s ∧ env.version = .ok v ∧
      env.processor = .ok p ∧ env.cpu_count_physical = .ok c ∧
      env.virtual_memory_total = .ok t ∧ m = infoSnapshot s v p c t := by
  obtain ⟨s, v, p, c, t, cp, vp, em⟩ := env
  cases s <;> cases v <;> cases p <;> cases c <;> cases t <;>
    simp_all [MissionComputer.get_mission_computer_info, runComputer]
  rename_i sv vv pv cv tv
  rcases he : em (infoSnapshot sv vv pv cv tv) with e | out <;> simp_all

/-- A successful load-reporter call means both queries succeeded and
the returned dict is exactly the one assembled from their results. -/
lemma load_success (env : SysEnv) (m : Snapshot)
    (h : (runComputer.get_mission_computer_load env).ret = some m) :
    ∃ c v, env.cpu_percent 1 = .ok c ∧ env.virtual_memory_percent = .ok v ∧
      m = loadSnapshot c v := by
  obtain ⟨s, v, p, c, t, cp, vp, em⟩ := env
  rcases hc : cp 1 with e | c1 <;>
    simp_all [MissionComputer.get_mission_computer_load, runComputer]
  rcases hv : vp with e | v1 <;> simp_all
  rcases he : em (loadSnapshot c1 v1) with e | out <;> simp_all

/-- Claim C1: if any underlying metric query of either reporter raises
an error, the method prints a diagnostic including the failure
description, returns None rather than any partial mapping, and no
exception propagates (the embedding is total, so the conclusion is
simply the printed diagnostic plus the `none` return). -/
theorem error_boundary (env : SysEnv) :
    (∀ e, firstInfoFailure env = some e →
      (runComputer.get_mission_computer_info env).ret = none ∧
      (runComputer.get_mission_computer_info env).printed = [infoErrorMsg e]) ∧
    (∀ e, firstLoadFailure env = some e →
      (runComputer.get_mission_computer_load env).ret = none ∧
      (runComputer.get_mission_computer_load env).printed = [loadErrorMsg e]) := by
  obtain ⟨s, v, p, c, t, cp, vp, em⟩ := env
  constructor
  · intro e he
    cases s <;> cases v <;> cases p <;> cases c <;> cases t <;>
      simp_all [MissionComputer.get_mission_computer_info, runComputer,
        firstInfoFailure]
  · intro e he
    rcases hc : cp 1 with e1 | c1 <;>
      simp_all [MissionComputer.get_mission_computer_load, runComputer,
        firstLoadFailure]
    rcases hv : vp with e2 | v2 <;> simp_all

/-- Witness for C1: on `envQueryFail` the first info query fails with
description "boom" and the first load query with "zap"; both reporters
print the diagnostic carrying that description and return None. -/
theorem error_boundary_witness :
    firstInfoFailure envQueryFail = some "boom" ∧
    (runComputer.get_mission_computer_info envQueryFail).ret = none ∧
    (runComputer.get_mission_computer_info envQueryFail).printed
      = [infoErrorMsg "boom"] ∧
    firstLoadFailure envQueryFail = some "zap" ∧
    (runComputer.get_mission_computer_load envQueryFail).ret = none ∧
    (runComputer.get_mission_computer_load envQueryFail).printed
      = [loadErrorMsg "zap"] := by
  refine ⟨rfl, ?_, ?_, rfl, ?_, ?_⟩
  · exact ((error_boundary envQueryFail).1 "boom" rfl).1
  · exact ((error_boundary envQueryFail).1 "boom" rfl).2
  · exact ((error_boundary envQueryFail).2 "zap" rfl).1
  · exact ((error_boundary envQueryFail).2 "zap" rfl).2

/-- Claim C6: every load-reporter call issues `cpu_percent` with the
fixed interval argument 1 as its first metric query, unconditionally;
the memory-percent read can only come after it, never before. -/
theorem load_query_order (env : SysEnv) :
    (runComputer.get_mission_computer_load env).queries.head?
      = some (Query.cpuPercent 1) ∧
    ((runComputer.get_mission_computer_load env).queries = [Query.cpuPercent 1] ∨
     (runComputer.get_mission_computer_load env).queries
       = [Query.cpuPercent 1, Query.virtualMemoryPercent]) := by
  obtain ⟨s, v, p, c, t, cp, vp, em⟩ := env
  rcases hc : cp 1 with e | c1 <;>
    simp_all [MissionComputer.get_mission_computer_load, runComputer]
  rcases hv : vp with e | v1 <;> simp_all
  rcases he : em (loadSnapshot c1 v1) with e | out <;> simp_all

/-- Claim C7: running the program with no arguments prints the info
section header, then whatever the info reporter prints, then the load
section header, then whatever the load reporter prints — the info
reporter strictly before the load reporter, each preceded by its fixed
header. -/
theorem main_output_sequence (env : SysEnv) :
    mainRun env =
      "--- 미션 컴퓨터 시스템 정보 ---"
        :: ((runComputer.get_mission_computer_info env).printed
          ++ "--- 미션 컴퓨터 부하 상태 ---"
            :: (runComputer.get_mission_computer_load env).printed) := by
  simp [mainRun]

/-- Claim C9: the `MissionComputer` object carries no state: any two
objects are equal and interchangeable in both reporter methods, so a
call cannot read or write instance state and leaves the object
unchanged; all observable effect is in the returned `CallResult`. -/
theorem mission_computer_stateless
    (a b : MissionComputer) (env : SysEnv) :
    a.get_mission_computer_info env = b.get_mission_computer_info env ∧
    a.get_mission_computer_load env = b.get_mission_computer_load env ∧
    a = b := by
  cases a
  cases b
  exact ⟨rfl, rfl, rfl⟩

/-- Claim C2: a successful info-reporter call returns a mapping of
exactly five fields — OS name, OS version, CPU descriptor, physical
core count, memory size — whose memory-size value is a non-negative
number equal to a whole number of hundredths (rounded to exactly two
decimal places). -/
theorem info_success_shape (env : SysEnv) (m : Snapshot)
    (h : (runComputer.get_mission_computer_info env).ret = some m) :
    m.length = 5 ∧
    m.map Prod.fst
      = ["운영체계", "운영체계_버전", "CPU_타입", "CPU_코어_수", "메모리_크기_GB"] ∧
    ∃ q : ℚ, ("메모리_크기_GB", PyVal.num q) ∈ m ∧ 0 ≤ q ∧
      ∃ n : ℤ, q = (n : ℚ) / 100 := by
  obtain ⟨s, v, p, c, t, _, _, _, _, ht, rfl⟩ := info_success env m h
  refine ⟨rfl, rfl, round2 ((t : ℚ) / 1024 ^ 3), ?_, ?_, ?_⟩
  · simp [infoSnapshot]
  · exact round2_nonneg _ (by positivity)
  · exact round2_eq_div _

/-- Witness for C2: the successful call on `envOk` returns the
five-field snapshot with a rounded, non-negative memory size. -/
theorem info_success_shape_witness :
    (runComputer.get_mission_computer_info envOk).ret = some infoOkSnap ∧
    (infoOkSnap.length = 5 ∧
     infoOkSnap.map Prod.fst
       = ["운영체계", "운영체계_버전", "CPU_타입", "CPU_코어_수", "메모리_크기_GB"] ∧
     ∃ q : ℚ, ("메모리_크기_GB", PyVal.num q) ∈ infoOkSnap ∧ 0 ≤ q ∧
       ∃ n : ℤ, q = (n : ℚ) / 100) :=
  ⟨rfl, info_success_shape envOk infoOkSnap rfl⟩

/-- Claim C3: under the spec's black-box contract that the system layer
delivers utilization percentages in [0, 100], every value of a
successful load-reporter result lies in [0, 100]. -/
theorem load_percentages_in_range (env : SysEnv) (m : Snapshot) (c v : ℚ)
    (hc : env.cpu_percent 1 = .ok c) (hv : env.virtual_memory_percent = .ok v)
    (hc0 : 0 ≤ c) (hc1 : c ≤ 100) (hv0 : 0 ≤ v) (hv1 : v ≤ 100)
    (h : (runComputer.get_mission_computer_load env).ret = some m) :
    ∀ kv ∈ m, ∃ q : ℚ, kv.2 = PyVal.num q ∧ 0 ≤ q ∧ q ≤ 100 := by
  obtain ⟨c2, v2, hc2, hv2, rfl⟩ := load_success env m h
  rw [hc] at hc2
  rw [hv] at hv2
  injection hc2 with e1
  injection hv2 with e2
  subst e1
  subst e2
  intro kv hkv
  simp only [loadSnapshot, List.mem_cons, List.not_mem_nil, or_false] at hkv
  rcases hkv with rfl | rfl
  · exact ⟨c, rfl, hc0, hc1⟩
  · exact ⟨v, rfl, hv0, hv1⟩

/-- Witness for C3: percentages 50 and 30 on `envOk` stay inside the
closed range. -/
theorem load_percentages_in_range_witness :
    envOk.cpu_percent 1 = .ok 50 ∧
    envOk.virtual_memory_percent = .ok 30 ∧
    (0 : ℚ) ≤ 50 ∧ (50 : ℚ) ≤ 100 ∧ (0 : ℚ) ≤ 30 ∧ (30 : ℚ) ≤ 100 ∧
    (runComputer.get_mission_computer_load envOk).ret
      = some (loadSnapshot 50 30) ∧
    ∀ kv ∈ loadSnapshot 50 30,
      ∃ q : ℚ, kv.2 = PyVal.num q ∧ 0 ≤ q ∧ q ≤ 100 := by
  refine ⟨rfl, rfl, by norm_num, by norm_num, by norm_num, by norm_num,
    rfl, ?_⟩
  exact load_percentages_in_range envOk (loadSnapshot 50 30) 50 30 rfl rfl
    (by norm_num) (by norm_num) (by norm_num) (by norm_num) rfl

/-- Claim C4: the memory-size field of a successful info report equals
the queried total byte count divided by 1024 cubed and rounded to two
decimal places: the stored value is within 1/200 of the exact quotient
and is a whole number of hundredths. -/
theorem memory_gb_conversion (env : SysEnv) (m : Snapshot) (t : Nat)
    (h : (runComputer.get_mission_computer_info env).ret = some m)
    (ht : env.virtual_memory_total = .ok t) :
    ("메모리_크기_GB", PyVal.num (round2 ((t : ℚ) / 1024 ^ 3))) ∈ m ∧
    |round2 ((t : ℚ) / 1024 ^ 3) - (t : ℚ) / 1024 ^ 3| ≤ 1 / 200 ∧
    ∃ n : ℤ, round2 ((t : ℚ) / 1024 ^ 3) = (n : ℚ) / 100 := by
  obtain ⟨s, v, p, c, t2, _, _, _, _, ht2, rfl⟩ := info_success env m h
  rw [ht] at ht2
  injection ht2 with hte
  subst hte
  exact ⟨by simp [infoSnapshot], abs_round2_sub _, round2_eq_div _⟩

/-- Witness for C4: on `envOk` (16 GiB of memory) the memory field
holds the rounded quotient of 17179869184 bytes by 1024 cubed. -/
theorem memory_gb_conversion_witness :
    (runComputer.get_mission_computer_info envOk).ret = some infoOkSnap ∧
    envOk.virtual_memory_total = .ok 17179869184 ∧
    (("메모리_크기_GB",
        PyVal.num (round2 (((17179869184 : Nat) : ℚ) / 1024 ^ 3))) ∈ infoOkSnap ∧
     |round2 (((17179869184 : Nat) : ℚ) / 1024 ^ 3)
        - ((17179869184 : Nat) : ℚ) / 1024 ^ 3| ≤ 1 / 200 ∧
     ∃ n : ℤ, round2 (((17179869184 : Nat) : ℚ) / 1024 ^ 3) = (n : ℚ) / 100) :=
  ⟨rfl, rfl, memory_gb_conversion envOk infoOkSnap 17179869184 rfl rfl⟩

/-- Claim C5: every value of a successful snapshot is a string, an
integer, or a float; concretely the info report is string, string,
string, integer, float in order (the core count is the integer) and the
load report is float, float. -/
theorem snapshot_value_types (env : SysEnv) :
    (∀ m, (runComputer.get_mission_computer_info env).ret = some m →
      shape m = [("운영체계", 0), ("운영체계_버전", 0), ("CPU_타입", 0),
                 ("CPU_코어_수", 1), ("메모리_크기_GB", 2)]) ∧
    (∀ m, (runComputer.get_mission_computer_load env).ret = some m →
      shape m = [("CPU_실시간_사용량_%", 2), ("메모리_실시간_사용량_%", 2)]) := by
  constructor
  · intro m h
    obtain ⟨s, v, p, c, t, _, _, _, _, _, rfl⟩ := info_success env m h
    rfl
  · intro m h
    obtain ⟨c, v, _, _, rfl⟩ := load_success env m h
    rfl

/-- Witness for C5: concrete type shapes of the two reports on
`envOk`. -/
theorem snapshot_value_types_witness :
    (runComputer.get_mission_computer_info envOk).ret = some infoOkSnap ∧
    shape infoOkSnap
      = [("운영체계", 0), ("운영체계_버전", 0), ("CPU_타입", 0),
         ("CPU_코어_수", 1), ("메모리_크기_GB", 2)] ∧
    (runComputer.get_mission_computer_load envOk).ret
      = some (loadSnapshot 50 30) ∧
    shape (loadSnapshot 50 30)
      = [("CPU_실시간_사용량_%", 2), ("메모리_실시간_사용량_%", 2)] :=
  ⟨rfl, (snapshot_value_types envOk).1 infoOkSnap rfl, rfl,
   (snapshot_value_types envOk).2 (loadSnapshot 50 30) rfl⟩

/-- Claim C8: any two successful calls to the same reporter return
structurally identical mappings — same field names in the same order
with the same value types — whatever the metric values were. -/
theorem structural_stability (e1 e2 : SysEnv) :
    (∀ m1 m2, (runComputer.get_mission_computer_info e1).ret = some m1 →
      (runComputer.get_mission_computer_info e2).ret = some m2 →
      shape m1 = shape m2) ∧
    (∀ m1 m2, (runComputer.get_mission_computer_load e1).ret = some m1 →
      (runComputer.get_mission_computer_load e2).ret = some m2 →
      shape m1 = shape m2) := by
  constructor
  · intro m1 m2 h1 h2
    obtain ⟨_, _, _, _, _, _, _, _, _, _, rfl⟩ := info_success e1 m1 h1
    obtain ⟨_, _, _, _, _, _, _, _, _, _, rfl⟩ := info_success e2 m2 h2
    rfl
  · intro m1 m2 h1 h2
    obtain ⟨_, _, _, _, rfl⟩ := load_success e1 m1 h1
    obtain ⟨_, _, _, _, rfl⟩ := load_success e2 m2 h2
    rfl

/-- Witness for C8: two successful runs on different environments
(`envOk`, `envOk2`) produce structurally identical reports. -/
theorem structural_stability_witness :
    (runComputer.get_mission_computer_info envOk).ret = some infoOkSnap ∧
    (runComputer.get_mission_computer_info envOk2).ret
      = some (infoSnapshot "Darwin" "23.1.0" "arm" 8 34359738368) ∧
    shape infoOkSnap
      = shape (infoSnapshot "Darwin" "23.1.0" "arm" 8 34359738368) ∧
    (runComputer.get_mission_computer_load envOk).ret
      = some (loadSnapshot 50 30) ∧
    (runComputer.get_mission_computer_load envOk2).ret
      = some (loadSnapshot 75 60) ∧
    shape (loadSnapshot 50 30) = shape (loadSnapshot 75 60) :=
  ⟨rfl, rfl, (structural_stability envOk envOk2).1 _ _ rfl rfl, rfl, rfl,
   (structural_stability envOk envOk2).2 _ _ rfl rfl⟩

/-- Claim C10: the error boundary also covers the serialize-and-print
step: if every metric query succeeded but emitting the report raises,
the method prints the diagnostic and returns None, discarding the fully
assembled mapping. -/
theorem emit_failure_boundary (env : SysEnv) :
    (∀ s v p c t e, env.system = .ok s → env.version = .ok v →
      env.processor = .ok p → env.cpu_count_physical = .ok c →
      env.virtual_memory_total = .ok t →
      env.emit (infoSnapshot s v p c t) = .error e →
      (runComputer.get_mission_computer_info env).ret = none ∧
      (runComputer.get_mission_computer_info env).printed
        = [infoErrorMsg e]) ∧
    (∀ c v e, env.cpu_percent 1 = .ok c →
      env.virtual_memory_percent = .ok v →
      env.emit (loadSnapshot c v) = .error e →
      (runComputer.get_mission_computer_load env).ret = none ∧
      (runComputer.get_mission_computer_load env).printed
        = [loadErrorMsg e]) := by
  constructor
  · intro s v p c t e hs hv hp hc ht he
    simp [MissionComputer.get_mission_computer_info, runComputer,
      hs, hv, hp, hc, ht, he]
  · intro c v e hc hv he
    simp [MissionComputer.get_mission_computer_load, runComputer,
      hc, hv, he]

/-- Witness for C10: on `envEmitFail` every metric query succeeds and
emission fails with "brokenpipe"; both reporters print the diagnostic
and return None. -/
theorem emit_failure_boundary_witness :
    envEmitFail.system = .ok "Linux" ∧
    envEmitFail.version = .ok "5.15.0" ∧
    envEmitFail.processor = .ok "x86_64" ∧
    envEmitFail.cpu_count_physical = .ok 4 ∧
    envEmitFail.virtual_memory_total = .ok 17179869184 ∧
    envEmitFail.emit (infoSnapshot "Linux" "5.15.0" "x86_64" 4 17179869184)
      = .error "brokenpipe" ∧
    (runComputer.get_mission_computer_info envEmitFail).ret = none ∧
    (runComputer.get_mission_computer_info envEmitFail).printed
      = [infoErrorMsg "brokenpipe"] ∧
    envEmitFail.cpu_percent 1 = .ok 50 ∧
    envEmitFail.virtual_memory_percent = .ok 30 ∧
    envEmitFail.emit (loadSnapshot 50 30) = .error "brokenpipe" ∧
    (runComputer.get_mission_computer_load envEmitFail).ret = none ∧
    (runComputer.get_mission_computer_load envEmitFail).printed
      = [loadErrorMsg "brokenpipe"] := by
  refine ⟨rfl, rfl, rfl, rfl, rfl, rfl, ?_, ?_, rfl, rfl, rfl, ?_, ?_⟩
  · exact ((emit_failure_boundary envEmitFail).1 "Linux" "5.15.0" "x86_64"
      4 17179869184 "brokenpipe" rfl rfl rfl rfl rfl rfl).1
  · exact ((emit_failure_boundary envEmitFail).1 "Linux" "5.15.0" "x86_64"
      4 17179869184 "brokenpipe" rfl rfl rfl rfl rfl rfl).2
  · exact ((emit_failure_boundary envEmitFail).2 50 30 "brokenpipe"
      rfl rfl rfl).1
  · exact ((emit_failure_boundary envEmitFail).2 50 30 "brokenpipe"
      rfl rfl rfl).2

end MarsMission
